import Mathlib

/-!
# WFMApi: a shallow embedding of the Warframe.Market client

The embedding follows `src/WFMApi.js`.  JavaScript values are a small algebraic
datatype, the private static fields of the class are a record `State`, and the
outside world (the wall clock, the timer, the HTTP transport and the console) is
a record `World` driven by an explicit environment `Env`.
-/

namespace WFMApi

/-! ## JavaScript values -/

/-- A JavaScript number.  Finite doubles are embedded in the rationals; only
`Number.isInteger` and order comparisons against integer literals are ever
applied to them, and both are exact on doubles. -/
inductive JSNumber where
  | nan
  | posInf
  | negInf
  | finite (q : ℚ)

/-- A JavaScript value.  Objects are plain property lists, in insertion order. -/
inductive JSValue where
  | undefined
  | null
  | bool (b : Bool)
  | number (n : JSNumber)
  | string (s : String)
  | object (fields : List (String × JSValue))

/-- Property list of a plain object. -/
abbrev Fields := List (String × JSValue)

/-- The number literal `n`. -/
def JSValue.int (n : Int) : JSValue := .number (.finite n)

/-- Truthiness (`ToBoolean`). -/
def truthy : JSValue → Bool
  | .undefined => false
  | .null => false
  | .bool b => b
  | .number .nan => false
  | .number (.finite q) => q != 0
  | .number _ => true
  | .string s => s != ""
  | .object _ => true

/-- The operator `a || b`. -/
def jsOr (a b : JSValue) : JSValue := if truthy a then a else b

/-- The value of `typeof v`. -/
def typeOf : JSValue → String
  | .undefined => "undefined"
  | .null => "object"
  | .bool _ => "boolean"
  | .number _ => "number"
  | .string _ => "string"
  | .object _ => "object"

/-- Own-property lookup in a property list; a missing key reads `undefined`. -/
def Fields.get : Fields → String → JSValue
  | [], _ => .undefined
  | (k, v) :: rest, key => if k == key then v else Fields.get rest key

/-- Whether the property list has the key. -/
def Fields.has : Fields → String → Bool
  | [], _ => false
  | (k, _) :: rest, key => k == key || Fields.has rest key

/-- Assignment `obj.key = v`: overwrite in place, or append a new property. -/
def Fields.set : Fields → String → JSValue → Fields
  | [], key, v => [(key, v)]
  | (k, w) :: rest, key, v =>
    if k == key then (k, v) :: rest else (k, w) :: Fields.set rest key v

/-- Property read `v.key` on a non-nullish value.  Primitives carry none of the
property names read by this client, so they read `undefined`. -/
def getProp : JSValue → String → JSValue
  | .object fs, key => Fields.get fs key
  | _, _ => .undefined

/-- Optional chaining `v?.key`; identical to `getProp` because a nullish base
short-circuits to `undefined`. -/
def optProp (v : JSValue) (key : String) : JSValue := getProp v key

/-- The integer held by a value for which `Number.isInteger` is true, and `none`
for every other value (non-numbers, `NaN`, infinities, fractions). -/
def toInteger? : JSValue → Option Int
  | .number (.finite q) => if q.den = 1 then some q.num else none
  | _ => none

/-- `Number.isInteger(v)`. -/
def isInteger (v : JSValue) : Bool := (toInteger? v).isSome

/-- `xs.indexOf(x)` on an array of strings: first position, or `-1`. -/
def indexOf (xs : List String) (x : String) : Int :=
  if x ∈ xs then (xs.indexOf x : Nat) else -1

/-- A thrown value: `new Error(message)`, a `TypeError` raised by the runtime
when a property of `undefined` or `null` is read, or a plain thrown value. -/
inductive Thrown where
  | jsError (message : String)
  | typeError
  | value (v : JSValue)

/-! ## Static fields of the class -/

/-- The private static fields of `WFMApi`. -/
structure State where
  JWTcookie : JSValue
  languageValue : String
  crossplay : String
  platformValue : String
  delay : Int
  lastRequestTime : Int

/-- `#language.available`; no method ever assigns it. -/
def languageAvailable : List String :=
  ["ko", "ru", "de", "fr", "pt", "zh-hans", "zh-hant", "es", "it", "pl", "uk", "en"]

/-- `#platform.available`; no method ever assigns it. -/
def platformAvailable : List String := ["pc", "ps4", "xbox", "switch", "mobile"]

/-- The field initialisers of the class. -/
def State.initial : State where
  JWTcookie := .null
  languageValue := "en"
  crossplay := "true"
  platformValue := "pc"
  delay := 500
  lastRequestTime := 0

/-- `static #apiUrl`. -/
def apiUrl : String := "https://api.warframe.market/v2"

/-- Outcome of a setter: the exception it threw, if any, and the fields after. -/
structure SetResult where
  thrown : Option Thrown
  state : State

/-- `static set JWT(cookie)`. -/
def setJWT (s : State) (cookie : JSValue) : SetResult :=
  match cookie with
  | .string c =>
    if c.length == 0 then ⟨some (.jsError "JWT cookie must not be empty"), s⟩
    else ⟨none, { s with JWTcookie := cookie }⟩
  | _ => ⟨some (.jsError "JWT cookie must be string"), s⟩

/-- `static set language(language)`. -/
def setLanguage (s : State) (language : JSValue) : SetResult :=
  match language with
  | .string l =>
    if indexOf languageAvailable l == -1 then
      ⟨some (.jsError
        "Language must be one of: ko, ru, de, fr, pt, zh-hans, zh-hant, es, it, pl, uk, en"), s⟩
    else ⟨none, { s with languageValue := l }⟩
  | _ => ⟨some (.jsError "Language must be string"), s⟩

/-- `static set crossplay(crossplay)`. -/
def setCrossplay (s : State) (crossplay : JSValue) : SetResult :=
  match crossplay with
  | .bool b => ⟨none, { s with crossplay := if b then "true" else "false" }⟩
  | _ => ⟨some (.jsError "Crossplay must be boolean"), s⟩

/-- `static set platform(platform)`. -/
def setPlatform (s : State) (platform : JSValue) : SetResult :=
  match platform with
  | .string p =>
    if indexOf platformAvailable p == -1 then
      ⟨some (.jsError "Platform must be one of: pc, ps4, xbox, switch, mobile"), s⟩
    else ⟨none, { s with platformValue := p }⟩
  | _ => ⟨some (.jsError "Platform must be string"), s⟩

/-- `static set cooldown(time)`.  The comparisons `time <= 0` and `time <= 350`
are only reached when `Number.isInteger(time)` holds. -/
def setCooldown (s : State) (time : JSValue) : SetResult :=
  match toInteger? time with
  | none => ⟨some (.jsError "Cooldown must be number and >350"), s⟩
  | some n =>
    if n ≤ 0 then ⟨some (.jsError "Cooldown must be number and >350"), s⟩
    else if n ≤ 350 then
      ⟨some (.jsError "3 requests per second is the limit, cooldown must be >350ms"), s⟩
    else ⟨none, { s with delay := n }⟩

/-- `static get language()`. -/
def getLanguage (s : State) : String := s.languageValue

/-! ## The outside world -/

/-- The `options` object handed to `axios.request`. -/
structure Request where
  method : String
  url : String
  headers : List (String × String)
  data : Option Fields

/-- How `axios.request` settles: it resolves with a response object or rejects
with an error value. -/
inductive AxiosOutcome where
  | resolve (response : Fields)
  | reject (error : JSValue)

/-- The observable world: the value `Date.now()` would return, the requests handed
to `axios.request` so far (oldest first), and the lines written to the console. -/
structure World where
  clock : Int
  sent : List Request
  console : List String

/-- Everything the client does not control.  The index `k` is the number of
requests sent before the one in question.  `drift` and `latency` are natural
numbers, so the clock is monotonic.  `timerSkew k` is how many milliseconds after
(negative: before) the delay it was armed with the timer fires. -/
structure Env where
  numToString : JSNumber → String
  timerSkew : Nat → Int
  drift : Nat → Nat
  latency : Nat → Nat
  respond : Nat → Request → AxiosOutcome

/-- String conversion inside a template literal.  Number formatting is left to
the runtime (`env.numToString`). -/
def toStr (env : Env) : JSValue → String
  | .undefined => "undefined"
  | .null => "null"
  | .bool b => if b then "true" else "false"
  | .number n => env.numToString n
  | .string s => s
  | .object _ => "[object Object]"

/-- Result of running a method: the returned value or the exception raised, the
static fields afterwards and the world afterwards. -/
structure Run where
  result : Except Thrown JSValue
  state : State
  world : World

/-! ## Private helpers -/

/-- The `Error` thrown by `#checkAuth(context)`. -/
def missingAuthError (context : String) : Thrown :=
  .jsError ("JWT cookie is required for \x1b[33mWFMApi." ++ context
    ++ "\x1b[0m. Set it with \x1b[33mWFMApi.JWT = \x27YOUR_JWT_COOKIE\x27\x1b[0m")

/-- `static #checkAuth(context)`: the exception it throws, if any. -/
def checkAuth (s : State) (context : String) : Option Thrown :=
  if !truthy s.JWTcookie then some (missingAuthError context) else none

/-- The delay `setTimeout(f, ms)` arms its timer with: the runtime keeps it in a
signed 32-bit integer and replaces a value outside `1 .. 2^31 - 1` by 1. -/
def timerDelay (ms : Int) : Int :=
  if 1 ≤ ms ∧ ms ≤ 2147483647 then ms else 1

/-- `static async #checkCooldown()`.  The request leaves at the clock reading it
records: the world's clock afterwards is the new `lastRequestTime`. -/
def checkCooldown (env : Env) (s : State) (w : World) : State × World :=
  let k := w.sent.length
  let currentTime := w.clock
  let sinceLastRequest := currentTime - s.lastRequestTime
  let resumed :=
    if sinceLastRequest < s.delay then
      let remaining := s.delay - sinceLastRequest
      currentTime + timerDelay remaining + env.timerSkew k
    else currentTime
  let now := resumed + env.drift k
  ({ s with lastRequestTime := now }, { w with clock := now })

/-- `static #getHeaders()`. -/
def getHeaders (env : Env) (s : State) : List (String × String) :=
  let headers :=
    [("language", s.languageValue), ("crossplay", s.crossplay),
     ("platform", s.platformValue), ("Content-Type", "application/json")]
  if truthy s.JWTcookie then headers ++ [("Cookie", "JWT=" ++ toStr env s.JWTcookie)]
  else headers

/-- The record thrown when the status text is `Unauthorized`. -/
def authorizationError : Fields :=
  [("error", .bool true),
   ("message",
     .string "\x1b[31mAuthorization error. JWT cookie is probably incorrect\x1b[0m")]

/-- The object `errorInfo` of `#handleErrors` as it stands after the `if`/`else if`
block. -/
def buildErrorInfo (error : JSValue) : Fields :=
  let errorInfo : Fields :=
    [("error", .bool true),
     ("message", jsOr (getProp error "message") (.string "Unknown error")),
     ("code", jsOr (getProp error "code") (.string "UNKNOWN"))]
  if truthy (getProp error "response") then
    let e1 := errorInfo.set "status" (getProp (getProp error "response") "status")
    let e2 := e1.set "statusText" (getProp (getProp error "response") "statusText")
    e2.set "message"
      (jsOr (optProp (getProp (getProp error "response") "data") "error")
        (getProp error "message"))
  else if truthy (getProp error "request") then
    (errorInfo.set "message" (.string "No response from server")).set "code"
      (.string "NO_RESPONSE")
  else errorInfo

/-- Whether `typeof v === "string"`. -/
def isString : JSValue → Bool
  | .string _ => true
  | _ => false

/-- Strict equality `v === s` against a string literal. -/
def strictEqStr (v : JSValue) (s : String) : Bool :=
  match v with
  | .string t => t == s
  | _ => false

/-- `static #handleErrors(error, context)`: it always throws; the result is the
thrown value together with the line passed to `console.error` (none when reading
`error.message` already fails). -/
def handleErrors (env : Env) (error : JSValue) (context : String) :
    Thrown × Option String :=
  match error with
  | .undefined => (.typeError, none)
  | .null => (.typeError, none)
  | _ =>
    let errorInfo := buildErrorInfo error
    let logMessage := "Request failed in \x1b[33m" ++ context ++ "\x1b[0m method. "
      ++ toStr env (optProp (errorInfo.get "message") "request")
      ++ " (" ++ toStr env (jsOr (errorInfo.get "status") (errorInfo.get "code")) ++ ")"
    if strictEqStr (errorInfo.get "statusText") "Unauthorized" then
      (.value (.object authorizationError), some logMessage)
    else (.value (.object errorInfo), some logMessage)

/-- Append a console line, if there is one. -/
def World.log (w : World) : Option String → World
  | none => w
  | some line => { w with console := w.console ++ [line] }

/-- `static async #doRequest(options, context)`. -/
def doRequest (env : Env) (s : State) (w : World) (options : Request)
    (context : String) : Run :=
  let k := w.sent.length
  let cooled := checkCooldown env s w
  let s1 := cooled.1
  let w1 := cooled.2
  let w2 : World :=
    { w1 with clock := w1.clock + env.latency k, sent := w1.sent ++ [options] }
  match env.respond k options with
  | .resolve response =>
    { result := .ok (optProp (Fields.get response "data") "data"), state := s1, world := w2 }
  | .reject error =>
    let handled := handleErrors env error context
    { result := .error handled.1, state := s1, world := w2.log handled.2 }

/-! ## Public methods -/

/-- A default parameter value: it replaces an argument that is `undefined`
(which is also what an omitted argument is). -/
def orDefault (arg dflt : JSValue) : JSValue :=
  match arg with
  | .undefined => dflt
  | _ => arg

/-- The test `!Number.isInteger(v) || v <= 0`; the comparison is reached only
for an integer. -/
def notPositiveInteger (v : JSValue) : Bool :=
  match toInteger? v with
  | none => true
  | some n => decide (n ≤ 0)

/-- The test `v !== null`. -/
def notNull : JSValue → Bool
  | .null => false
  | _ => true

/-- A method that throws `new Error(message)` before doing anything else. -/
def fail (s : State) (w : World) (message : String) : Run :=
  { result := .error (.jsError message), state := s, world := w }

/-- A method that rethrows `t`. -/
def failWith (s : State) (w : World) (t : Thrown) : Run :=
  { result := .error t, state := s, world := w }

/-- The object `data` that `addOrder` builds once its arguments are validated. -/
def addOrderData (itemId type visible platinum quantity rank : JSValue) : Fields :=
  let data : Fields :=
    [("itemId", itemId), ("type", type), ("visible", visible),
     ("platinum", platinum), ("quantity", quantity)]
  if notNull rank then data.set "rank" rank else data

/-- `static async addOrder(itemId, type, platinum, quantity = 1, visible = true,
rank = null)`. -/
def addOrder (env : Env) (s : State) (w : World)
    (itemId type platinum quantityArg visibleArg rankArg : JSValue) : Run :=
  let quantity := orDefault quantityArg (.int 1)
  let visible := orDefault visibleArg (.bool true)
  let rank := orDefault rankArg .null
  match checkAuth s "addOrder" with
  | some t => failWith s w t
  | none =>
    if !strictEqStr type "sell" && !strictEqStr type "buy" then
      fail s w "Order type must be \"sell\" or \"buy\""
    else if notPositiveInteger platinum then fail s w "Platinum must be number and >0"
    else if notPositiveInteger quantity then fail s w "Quantity must be number and >0"
    else if typeOf visible != "boolean" then fail s w "Visible must be boolean"
    else if notNull rank && !isInteger rank then fail s w "Rank must be number"
    else
      let options : Request :=
        { method := "POST", url := apiUrl ++ "/order", headers := getHeaders env s,
          data := some (addOrderData itemId type visible platinum quantity rank) }
      doRequest env s w options "addOrder"

/-- `static async modifyOrder(orderId, platinum, quantity = 1, visible = true,
rank = null)`. -/
def modifyOrder (env : Env) (s : State) (w : World)
    (orderId platinum quantityArg visibleArg rankArg : JSValue) : Run :=
  let quantity := orDefault quantityArg (.int 1)
  let visible := orDefault visibleArg (.bool true)
  let rank := orDefault rankArg .null
  match checkAuth s "modifyOrder" with
  | some t => failWith s w t
  | none =>
    if notPositiveInteger platinum then fail s w "Platinum must be number and >0"
    else if notPositiveInteger quantity then fail s w "Quantity must be number and >0"
    else if typeOf visible != "boolean" then fail s w "Visible must be boolean"
    else if notNull rank && !isInteger rank then fail s w "Rank must be number"
    else
      let data : Fields :=
        [("platinum", platinum), ("quantity", quantity), ("visible", visible)]
      let data := if notNull rank then data.set "rank" rank else data
      let options : Request :=
        { method := "PATCH", url := apiUrl ++ "/order/" ++ toStr env orderId,
          headers := getHeaders env s, data := some data }
      doRequest env s w options "modifyOrder"

/-- `static async deleteOrder(orderId)`. -/
def deleteOrder (env : Env) (s : State) (w : World) (orderId : JSValue) : Run :=
  match checkAuth s "deleteOrder" with
  | some t => failWith s w t
  | none =>
    let options : Request :=
      { method := "DELETE", url := apiUrl ++ "/order/" ++ toStr env orderId,
        headers := getHeaders env s, data := none }
    doRequest env s w options "deleteOrder"

/-- `static async closeOrder(orderId, quantity = 1)`. -/
def closeOrder (env : Env) (s : State) (w : World) (orderId quantityArg : JSValue) : Run :=
  let quantity := orDefault quantityArg (.int 1)
  match checkAuth s "closeOrder" with
  | some t => failWith s w t
  | none =>
    if notPositiveInteger quantity then fail s w "Quantity must be number and >0"
    else
      let data : Fields := [("quantity", quantity)]
      let options : Request :=
        { method := "POST", url := apiUrl ++ "/order/" ++ toStr env orderId ++ "/close",
          headers := getHeaders env s, data := some data }
      doRequest env s w options "closeOrder"

/-- `static async getOrderInfo(orderId)`. -/
def getOrderInfo (env : Env) (s : State) (w : World) (orderId : JSValue) : Run :=
  let options : Request :=
    { method := "GET", url := apiUrl ++ "/order/" ++ toStr env orderId,
      headers := getHeaders env s, data := none }
  doRequest env s w options "getOrderInfo"

/-- `static async getMyOrders()`. -/
def getMyOrders (env : Env) (s : State) (w : World) : Run :=
  match checkAuth s "getMyOrders" with
  | some t => failWith s w t
  | none =>
    let options : Request :=
      { method := "GET", url := apiUrl ++ "/orders/my", headers := getHeaders env s,
        data := none }
    doRequest env s w options "getMyOrders"

/-- `static async getMyProfile()`. -/
def getMyProfile (env : Env) (s : State) (w : World) : Run :=
  match checkAuth s "getMyProfile" with
  | some t => failWith s w t
  | none =>
    let options : Request :=
      { method := "GET", url := apiUrl ++ "/me", headers := getHeaders env s, data := none }
    doRequest env s w options "getMyProfile"

/-- `static async getItemOrders(itemSlug)`. -/
def getItemOrders (env : Env) (s : State) (w : World) (itemSlug : JSValue) : Run :=
  if !truthy itemSlug then fail s w "Item Slug is required"
  else
    let options : Request :=
      { method := "GET", url := apiUrl ++ "/orders/item/" ++ toStr env itemSlug,
        headers := getHeaders env s, data := none }
    doRequest env s w options "getItemOrders"

/-- `static async getAllItems()`. -/
def getAllItems (env : Env) (s : State) (w : World) : Run :=
  let options : Request :=
    { method := "GET", url := apiUrl ++ "/items", headers := getHeaders env s, data := none }
  doRequest env s w options "getAllItems"

/-- `static async getItemInfo(itemSlug)`. -/
def getItemInfo (env : Env) (s : State) (w : World) (itemSlug : JSValue) : Run :=
  if !truthy itemSlug then fail s w "Item Slug is required"
  else
    let options : Request :=
      { method := "GET", url := apiUrl ++ "/item/" ++ toStr env itemSlug,
        headers := getHeaders env s, data := none }
    doRequest env s w options "getItemInfo"

/-- The line `getTopItemOrders` passes to `console.warn`. -/
def noRanksWarning (env : Env) (itemSlug : JSValue) : String :=
  "\x1b[33m[Warning]\x1b[0m Item \"" ++ toStr env itemSlug
    ++ "\" has no ranks. Use \x1b[33mmaxRank\x1b[0m argument only for items with ranks like mods/arcanes."

/-- `static async getTopItemOrders(itemSlug, maxRank = false)`. -/
def getTopItemOrders (env : Env) (s : State) (w : World)
    (itemSlug maxRankArg : JSValue) : Run :=
  let maxRank := orDefault maxRankArg (.bool false)
  if !truthy itemSlug then fail s w "Item Slug is required"
  else
    let url := apiUrl ++ "/orders/item/" ++ toStr env itemSlug ++ "/top"
    if truthy maxRank then
      let r := getItemInfo env s w itemSlug
      match r.result with
      | .error t => failWith r.state r.world t
      | .ok .undefined => failWith r.state r.world .typeError
      | .ok .null => failWith r.state r.world .typeError
      | .ok item =>
        if isInteger (getProp item "maxRank") then
          let options : Request :=
            { method := "GET", url := url ++ "?rank=" ++ toStr env (getProp item "maxRank"),
              headers := getHeaders env r.state, data := none }
          doRequest env r.state r.world options "getTopItemOrders"
        else
          let options : Request :=
            { method := "GET", url := url, headers := getHeaders env r.state, data := none }
          doRequest env r.state (r.world.log (some (noRanksWarning env itemSlug))) options
            "getTopItemOrders"
    else
      let options : Request :=
        { method := "GET", url := url, headers := getHeaders env s, data := none }
      doRequest env s w options "getTopItemOrders"

/-- `static async getItemInfoWithSet(itemSlug)`. -/
def getItemInfoWithSet (env : Env) (s : State) (w : World) (itemSlug : JSValue) : Run :=
  if !truthy itemSlug then fail s w "Item Slug is required"
  else
    let options : Request :=
      { method := "GET", url := apiUrl ++ "/item/" ++ toStr env itemSlug ++ "/set",
        headers := getHeaders env s, data := none }
    doRequest env s w options "getItemInfoWithSet"

/-- `static async getUserPublicInfo(slug)`. -/
def getUserPublicInfo (env : Env) (s : State) (w : World) (slug : JSValue) : Run :=
  if !truthy slug then fail s w "Slug is required"
  else
    let options : Request :=
      { method := "GET", url := apiUrl ++ "/user/" ++ toStr env slug,
        headers := getHeaders env s, data := none }
    doRequest env s w options "getUserPublicInfo"

/-- `static async getUserPublicOrders(slug)`. -/
def getUserPublicOrders (env : Env) (s : State) (w : World) (slug : JSValue) : Run :=
  if !truthy slug then fail s w "Slug is required"
  else
    let options : Request :=
      { method := "GET", url := apiUrl ++ "/orders/user/" ++ toStr env slug,
        headers := getHeaders env s, data := none }
    doRequest env s w options "getUserPublicOrders"

/-! ## A concrete environment, for closed examples -/

/-- An environment in which timers are punctual, nothing takes time and every
request resolves with an empty response object. -/
def Env.punctual : Env where
  numToString := fun _ => "0"
  timerSkew := fun _ => 0
  drift := fun _ => 0
  latency := fun _ => 0
  respond := fun _ _ => .resolve []

/-- The initial fields after `WFMApi.JWT = "token"`. -/
def State.withToken : State := (setJWT State.initial (.string "token")).state

/-- A world in which nothing has been sent or logged yet. -/
def World.fresh (clock : Int) : World := { clock := clock, sent := [], console := [] }

/-- A rejected request answered with HTTP 401 `Unauthorized`. -/
def sampleUnauthorized : Fields :=
  [("message", .string "Request failed with status code 401"),
   ("code", .string "ERR_BAD_REQUEST"),
   ("request", .object []),
   ("response", .object
     [("status", .int 401), ("statusText", .string "Unauthorized"),
      ("data", .object [("error", .object [("request", .string "app.errors.unauthorized")])])])]

/-- A rejected request answered with HTTP 404 `Not Found`. -/
def sampleNotFound : Fields :=
  [("message", .string "Request failed with status code 404"),
   ("code", .string "ERR_BAD_REQUEST"),
   ("request", .object []),
   ("response", .object
     [("status", .int 404), ("statusText", .string "Not Found"),
      ("data", .object [("error", .object [("request", .string "app.errors.notFound")])])])]

/-- A request that was sent and never answered. -/
def sampleTimeout : Fields :=
  [("message", .string "timeout of 1000ms exceeded"), ("code", .string "ECONNABORTED"),
   ("request", .object [])]

/-- The request `getAllItems` builds on the initial fields. -/
def sampleRequest : Request :=
  { method := "GET", url := "https://api.warframe.market/v2/items",
    headers := [("language", "en"), ("crossplay", "true"), ("platform", "pc"),
      ("Content-Type", "application/json")],
    data := none }

/-- A first request, started at clock reading 1000 on the initial fields. -/
def firstRun : Run :=
  doRequest Env.punctual State.initial (World.fresh 1000) sampleRequest "getAllItems"

/-- A second request, started at clock reading 1100 after `WFMApi.language = "ru"`. -/
def secondRun : Run :=
  doRequest Env.punctual (setLanguage firstRun.state (.string "ru")).state
    { firstRun.world with clock := 1100 } sampleRequest "getAllItems"

/-- The initial fields after `WFMApi.cooldown = 3000000000`. -/
def State.longCooldown : State := (setCooldown State.initial (.int 3000000000)).state

/-- A first request under the long cooldown, started at clock reading
1700000000000. -/
def longFirstRun : Run :=
  doRequest Env.punctual State.longCooldown (World.fresh 1700000000000) sampleRequest
    "getAllItems"

/-- A second request under the long cooldown, started 100 ms after the first
returned. -/
def longSecondRun : Run :=
  doRequest Env.punctual longFirstRun.state
    { longFirstRun.world with clock := longFirstRun.world.clock + 100 } sampleRequest
    "getAllItems"

/-! ## Basic facts about values -/

theorem toInteger?_eq_some_iff (v : JSValue) (n : Int) :
    toInteger? v = some n ↔ v = JSValue.int n := by
  cases v with
  | number x =>
    cases x with
    | finite q =>
      simp only [toInteger?, JSValue.int]
      constructor
      · intro h
        split at h
        · rename_i hd
          have hn : q.num = n := by simpa using h
          have hq : ((q.num : Int) : ℚ) = q := Rat.coe_int_num_of_den_eq_one hd
          rw [← hq, hn]
        · simp at h
      · intro h
        have hq : q = (n : ℚ) := by simpa using h
        subst hq
        simp
    | nan => simp [toInteger?, JSValue.int]
    | posInf => simp [toInteger?, JSValue.int]
    | negInf => simp [toInteger?, JSValue.int]
  | undefined => simp [toInteger?, JSValue.int]
  | null => simp [toInteger?, JSValue.int]
  | bool b => simp [toInteger?, JSValue.int]
  | string t => simp [toInteger?, JSValue.int]
  | object fs => simp [toInteger?, JSValue.int]

theorem indexOf_eq_neg_one_iff (xs : List String) (x : String) :
    indexOf xs x = -1 ↔ x ∉ xs := by
  unfold indexOf
  constructor
  · intro h hx
    rw [if_pos hx] at h
    omega
  · intro hx
    rw [if_neg hx]

/-! ## Configuration setters -/

/-- C2: the cooldown setter accepts a value exactly when it is an integer greater
than 350; an accepted value becomes the stored delay (nothing else changes), and
every other value (at most 350, negative, fractional, not a number) is rejected
with an error and leaves the static fields as they were. -/
theorem setCooldown_accepts_iff (s : State) (time : JSValue) :
    ((setCooldown s time).thrown = none ↔ ∃ n : Int, time = JSValue.int n ∧ 350 < n) ∧
    (∀ n : Int, time = JSValue.int n → 350 < n →
      (setCooldown s time).thrown = none ∧
      (setCooldown s time).state = { s with delay := n }) ∧
    ((¬ ∃ n : Int, time = JSValue.int n ∧ 350 < n) →
      (∃ msg, (setCooldown s time).thrown = some (Thrown.jsError msg)) ∧
      (setCooldown s time).state = s) := by
  cases h : toInteger? time with
  | none =>
    have hno : ∀ n : Int, time ≠ JSValue.int n := by
      intro n hn
      rw [(toInteger?_eq_some_iff time n).mpr hn] at h
      cases h
    refine ⟨?_, ?_, ?_⟩
    · simp only [setCooldown, h]
      constructor
      · intro hc; cases hc
      · rintro ⟨n, hn, _⟩; exact absurd hn (hno n)
    · intro n hn; exact absurd hn (hno n)
    · intro _
      simp [setCooldown, h]
  | some m =>
    have hm : time = JSValue.int m := (toInteger?_eq_some_iff time m).mp h
    have huniq : ∀ n : Int, time = JSValue.int n → n = m := by
      intro n hn
      have := (toInteger?_eq_some_iff time n).mpr hn
      rw [h] at this
      exact (Option.some.inj this).symm
    by_cases h0 : m ≤ 0
    · have hrej : ¬ ∃ n : Int, time = JSValue.int n ∧ 350 < n := by
        rintro ⟨n, hn, hgt⟩
        have := huniq n hn
        omega
      refine ⟨?_, ?_, ?_⟩
      · simp only [setCooldown, h, if_pos h0]
        constructor
        · intro hc; cases hc
        · intro hc; exact absurd hc hrej
      · intro n hn hgt
        have := huniq n hn
        omega
      · intro _
        simp [setCooldown, h, h0]
    · by_cases h350 : m ≤ 350
      · have hrej : ¬ ∃ n : Int, time = JSValue.int n ∧ 350 < n := by
          rintro ⟨n, hn, hgt⟩
          have := huniq n hn
          omega
        refine ⟨?_, ?_, ?_⟩
        · simp only [setCooldown, h, if_neg h0, if_pos h350]
          constructor
          · intro hc; cases hc
          · intro hc; exact absurd hc hrej
        · intro n hn hgt
          have := huniq n hn
          omega
        · intro _
          simp [setCooldown, h, h0, h350]
      · refine ⟨?_, ?_, ?_⟩
        · simp only [setCooldown, h, if_neg h0, if_neg h350]
          constructor
          · intro _; exact ⟨m, hm, by omega⟩
          · intro _; trivial
        · intro n hn _
          have hnm := huniq n hn
          subst hnm
          simp [setCooldown, h, h0, h350]
        · intro hrej
          exact absurd ⟨m, hm, by omega⟩ hrej

theorem getHeaders_platform (env : Env) (s : State) :
    (getHeaders env s).lookup "platform" = some s.platformValue := by
  unfold getHeaders
  split <;> simp [List.lookup]

/-- C3: a value outside the enumerated set (12 languages, 5 platforms) makes the
language, respectively platform, setter fail and leaves the static fields
unchanged; a value inside the set is accepted, after which the language getter
returns it, respectively the `platform` header built from the new fields
equals it. -/
theorem setLanguage_setPlatform_spec (env : Env) (s : State) (v : JSValue) :
    ((¬ ∃ l, l ∈ languageAvailable ∧ v = JSValue.string l) →
      (∃ msg, (setLanguage s v).thrown = some (Thrown.jsError msg)) ∧
      (setLanguage s v).state = s) ∧
    (∀ l, l ∈ languageAvailable → v = JSValue.string l →
      (setLanguage s v).thrown = none ∧
      JSValue.string (getLanguage (setLanguage s v).state) = v) ∧
    ((¬ ∃ p, p ∈ platformAvailable ∧ v = JSValue.string p) →
      (∃ msg, (setPlatform s v).thrown = some (Thrown.jsError msg)) ∧
      (setPlatform s v).state = s) ∧
    (∀ p, p ∈ platformAvailable → v = JSValue.string p →
      (setPlatform s v).thrown = none ∧
      ((getHeaders env (setPlatform s v).state).lookup "platform").map JSValue.string
        = some v) ∧
    languageAvailable.length = 12 ∧ platformAvailable.length = 5 := by
  refine ⟨?_, ?_, ?_, ?_, rfl, rfl⟩
  · intro hout
    cases v with
    | string l =>
      have hl : l ∉ languageAvailable := fun hl => hout ⟨l, hl, rfl⟩
      have hi : indexOf languageAvailable l = -1 := (indexOf_eq_neg_one_iff _ _).mpr hl
      simp [setLanguage, hi]
    | undefined => simp [setLanguage]
    | null => simp [setLanguage]
    | bool b => simp [setLanguage]
    | number n => simp [setLanguage]
    | object fs => simp [setLanguage]
  · intro l hl hv
    subst hv
    have hi : ¬ indexOf languageAvailable l = -1 :=
      fun h => (indexOf_eq_neg_one_iff _ _).mp h hl
    simp [setLanguage, hi, getLanguage]
  · intro hout
    cases v with
    | string p =>
      have hp : p ∉ platformAvailable := fun hp => hout ⟨p, hp, rfl⟩
      have hi : indexOf platformAvailable p = -1 := (indexOf_eq_neg_one_iff _ _).mpr hp
      simp [setPlatform, hi]
    | undefined => simp [setPlatform]
    | null => simp [setPlatform]
    | bool b => simp [setPlatform]
    | number n => simp [setPlatform]
    | object fs => simp [setPlatform]
  · intro p hp hv
    subst hv
    have hi : ¬ indexOf platformAvailable p = -1 :=
      fun h => (indexOf_eq_neg_one_iff _ _).mp h hp
    simp [setPlatform, hi, getHeaders_platform]

/-! ## The cooldown gate -/

theorem World.log_sent (w : World) (line : Option String) : (w.log line).sent = w.sent := by
  cases line <;> rfl

theorem doRequest_state (env : Env) (s : State) (w : World) (o : Request) (c : String) :
    (doRequest env s w o c).state = (checkCooldown env s w).1 := by
  simp only [doRequest]
  split <;> rfl

theorem doRequest_sent (env : Env) (s : State) (w : World) (o : Request) (c : String) :
    (doRequest env s w o c).world.sent = w.sent ++ [o] := by
  simp only [doRequest]
  split
  · rfl
  · simp [World.log_sent, checkCooldown]

theorem doRequest_result_of_reject (env : Env) (s : State) (w : World) (o : Request)
    (c : String) (error : JSValue) (h : env.respond w.sent.length o = .reject error) :
    (doRequest env s w o c).result = .error (handleErrors env error c).1 := by
  simp only [doRequest, h]

theorem doRequest_clock (env : Env) (s : State) (w : World) (o : Request) (c : String) :
    (doRequest env s w o c).world.clock
      = (doRequest env s w o c).state.lastRequestTime + env.latency w.sent.length := by
  simp only [doRequest]
  split
  · rfl
  · cases (handleErrors env _ c).2 <;> rfl

theorem checkCooldown_ge (env : Env) (s : State) (w : World)
    (hmax : s.delay ≤ 2147483647) (htimer : 0 ≤ env.timerSkew w.sent.length)
    (hclock : s.lastRequestTime ≤ w.clock) :
    w.clock ≤ (checkCooldown env s w).1.lastRequestTime ∧
    s.lastRequestTime + s.delay ≤ (checkCooldown env s w).1.lastRequestTime := by
  simp only [checkCooldown, timerDelay]
  have h2 := Int.ofNat_nonneg (env.drift w.sent.length)
  split
  · split
    · constructor <;> omega
    · rename_i hlt hout
      exact absurd ⟨by omega, by omega⟩ hout
  · constructor <;> omega

/-- Spacing of two consecutive, strictly sequential executions of `#doRequest`
when the delay fits the timer (at most `2^31 - 1` ms) and the timer of the second
execution does not fire early.  The second starts from fields whose cooldown
delay and last-request timestamp are those left by the first, at a clock reading
not before the one at which the first returned.  Then the second request leaves
at the clock reading it records, that reading is not before the start of the
second execution, and it is at least the delay after the reading recorded by the
first. -/
theorem doRequest_spacing_of_bounded (env : Env) (s : State) (w : World) (o1 : Request)
    (c1 : String) (s2 : State) (w2 : World) (o2 : Request) (c2 : String)
    (hdelay : s2.delay = s.delay)
    (hlast : s2.lastRequestTime = (doRequest env s w o1 c1).state.lastRequestTime)
    (hclock : (doRequest env s w o1 c1).world.clock ≤ w2.clock)
    (hmax : s.delay ≤ 2147483647) (htimer : 0 ≤ env.timerSkew w2.sent.length) :
    s.delay ≤ (doRequest env s2 w2 o2 c2).state.lastRequestTime
      - (doRequest env s w o1 c1).state.lastRequestTime ∧
    w2.clock ≤ (doRequest env s2 w2 o2 c2).state.lastRequestTime ∧
    (doRequest env s2 w2 o2 c2).world.clock
      = (doRequest env s2 w2 o2 c2).state.lastRequestTime + env.latency w2.sent.length := by
  have hfirst := doRequest_clock env s w o1 c1
  have hlat := Int.ofNat_nonneg (env.latency w.sent.length)
  have hge := checkCooldown_ge env s2 w2 (by omega) htimer (by omega)
  refine ⟨?_, ?_, doRequest_clock env s2 w2 o2 c2⟩
  · rw [doRequest_state env s2 w2 o2 c2, ← hlast]
    omega
  · rw [doRequest_state env s2 w2 o2 c2]
    exact hge.1

/-- The bounded spacing at a concrete input: delay 500, a first request recorded
at 1000, then the language is changed and a second request is started at clock
reading 1100; it leaves, and is recorded, at 1500. -/
theorem doRequest_spacing_of_bounded_example :
    State.initial.delay
      ≤ secondRun.state.lastRequestTime - firstRun.state.lastRequestTime ∧
    (1100 : Int) ≤ secondRun.state.lastRequestTime ∧
    secondRun.world.clock = secondRun.state.lastRequestTime + (0 : Nat) ∧
    State.initial.delay = 500 ∧ firstRun.state.lastRequestTime = 1000 ∧
    secondRun.state.lastRequestTime = 1500 :=
  have h := doRequest_spacing_of_bounded Env.punctual State.initial (World.fresh 1000)
    sampleRequest "getAllItems" (setLanguage firstRun.state (.string "ru")).state
    { firstRun.world with clock := 1100 } sampleRequest "getAllItems" rfl rfl
    (by decide) (by decide) (by decide)
  ⟨h.1, h.2.1, h.2.2, rfl, rfl, rfl⟩

/-- C1, evaluated at the failing input.  `WFMApi.cooldown = 3000000000` is
accepted and stored.  A first request leaves at clock reading 1700000000000; a
second execution starts 100 ms later, computes a remaining wait of 2999999900 ms,
which the timer replaces by 1 ms, and its request leaves, and is recorded, at
1700000000101.  The two recorded timestamps are 101 ms apart, less than the
configured delay, although the timer fired exactly when armed and the clock never
went back. -/
theorem doRequest_spacing_fails_for_long_cooldown :
    (setCooldown State.initial (.int 3000000000)).thrown = none ∧
    State.longCooldown.delay = 3000000000 ∧
    longFirstRun.state.lastRequestTime = 1700000000000 ∧
    longFirstRun.world.clock = 1700000000000 ∧
    longSecondRun.state.delay = 3000000000 ∧
    longSecondRun.state.lastRequestTime = 1700000000101 ∧
    longSecondRun.world.clock = 1700000000101 ∧
    longSecondRun.world.sent = [sampleRequest, sampleRequest] ∧
    longSecondRun.state.lastRequestTime - longFirstRun.state.lastRequestTime = 101 ∧
    ¬ (State.longCooldown.delay
        ≤ longSecondRun.state.lastRequestTime - longFirstRun.state.lastRequestTime) := by
  refine ⟨rfl, rfl, rfl, rfl, rfl, rfl, rfl, rfl, rfl, ?_⟩
  decide

/-! ## Authentication guard -/

theorem checkAuth_null (s : State) (h : s.JWTcookie = JSValue.null) (context : String) :
    checkAuth s context = some (missingAuthError context) := by
  simp [checkAuth, h, truthy]

/-- C4: with no token configured (`#JWTcookie` still `null`) each of `addOrder`,
`modifyOrder`, `deleteOrder`, `closeOrder`, `getMyOrders` and `getMyProfile`
throws the missing-auth error whatever its arguments, and leaves the static
fields (so also the last-request timestamp) and the world (so also the list of
HTTP requests sent) exactly as they were. -/
theorem auth_methods_fail_without_token (env : Env) (s : State) (w : World)
    (h : s.JWTcookie = JSValue.null) (a b c d e f : JSValue) :
    addOrder env s w a b c d e f
      = { result := .error (missingAuthError "addOrder"), state := s, world := w } ∧
    modifyOrder env s w a b c d e
      = { result := .error (missingAuthError "modifyOrder"), state := s, world := w } ∧
    deleteOrder env s w a
      = { result := .error (missingAuthError "deleteOrder"), state := s, world := w } ∧
    closeOrder env s w a b
      = { result := .error (missingAuthError "closeOrder"), state := s, world := w } ∧
    getMyOrders env s w
      = { result := .error (missingAuthError "getMyOrders"), state := s, world := w } ∧
    getMyProfile env s w
      = { result := .error (missingAuthError "getMyProfile"), state := s, world := w } := by
  refine ⟨?_, ?_, ?_, ?_, ?_, ?_⟩
  · simp only [addOrder, checkAuth_null s h, failWith]
  · simp only [modifyOrder, checkAuth_null s h, failWith]
  · simp only [deleteOrder, checkAuth_null s h, failWith]
  · simp only [closeOrder, checkAuth_null s h, failWith]
  · simp only [getMyOrders, checkAuth_null s h, failWith]
  · simp only [getMyProfile, checkAuth_null s h, failWith]

/-- C4, at the initial fields, with otherwise valid arguments. -/
theorem auth_methods_fail_without_token_witness :
    State.initial.JWTcookie = JSValue.null ∧
    (addOrder Env.punctual State.initial (World.fresh 1000) (.string "id") (.string "sell")
        (.int 10) (.int 1) (.bool true) .null).world.sent = [] ∧
    (getMyProfile Env.punctual State.initial (World.fresh 1000)).state.lastRequestTime = 0 :=
  have h := auth_methods_fail_without_token Env.punctual State.initial (World.fresh 1000) rfl
    (.string "id") (.string "sell") (.int 10) (.int 1) (.bool true) .null
  ⟨rfl, by rw [h.1]; rfl, by rw [h.2.2.2.2.2]; rfl⟩

/-! ## Error normalisation -/

theorem buildErrorInfo_response (e : JSValue) (h : truthy (getProp e "response") = true) :
    buildErrorInfo e =
      [("error", .bool true),
       ("message", jsOr (optProp (getProp (getProp e "response") "data") "error")
          (getProp e "message")),
       ("code", jsOr (getProp e "code") (.string "UNKNOWN")),
       ("status", getProp (getProp e "response") "status"),
       ("statusText", getProp (getProp e "response") "statusText")] := by
  simp [buildErrorInfo, h, Fields.set]

theorem buildErrorInfo_request (e : JSValue) (h : truthy (getProp e "response") = false)
    (hr : truthy (getProp e "request") = true) :
    buildErrorInfo e =
      [("error", .bool true), ("message", .string "No response from server"),
       ("code", .string "NO_RESPONSE")] := by
  simp [buildErrorInfo, h, hr, Fields.set]

theorem buildErrorInfo_neither (e : JSValue) (h : truthy (getProp e "response") = false)
    (hr : truthy (getProp e "request") = false) :
    buildErrorInfo e =
      [("error", .bool true),
       ("message", jsOr (getProp e "message") (.string "Unknown error")),
       ("code", jsOr (getProp e "code") (.string "UNKNOWN"))] := by
  simp [buildErrorInfo, h, hr]

theorem handleErrors_thrown (env : Env) (fs : Fields) (context : String) :
    (handleErrors env (.object fs) context).1 =
      if strictEqStr ((buildErrorInfo (.object fs)).get "statusText") "Unauthorized" then
        Thrown.value (.object authorizationError)
      else Thrown.value (.object (buildErrorInfo (.object fs))) := by
  simp only [handleErrors]
  split <;> rfl

theorem strictEqStr_eq_true_iff (v : JSValue) (t : String) :
    strictEqStr v t = true ↔ v = JSValue.string t := by
  cases v <;> simp [strictEqStr]

theorem handleErrors_of_response (env : Env) (fs : Fields) (context : String)
    (h : truthy (getProp (.object fs) "response") = true)
    (hs : getProp (getProp (.object fs) "response") "statusText" ≠ .string "Unauthorized") :
    (handleErrors env (.object fs) context).1 =
      Thrown.value (.object
        [("error", .bool true),
         ("message", jsOr (optProp (getProp (getProp (.object fs) "response") "data") "error")
            (getProp (.object fs) "message")),
         ("code", jsOr (getProp (.object fs) "code") (.string "UNKNOWN")),
         ("status", getProp (getProp (.object fs) "response") "status"),
         ("statusText", getProp (getProp (.object fs) "response") "statusText")]) := by
  rw [handleErrors_thrown, buildErrorInfo_response _ h]
  have hne : strictEqStr (getProp (getProp (.object fs) "response") "statusText")
      "Unauthorized" = false := by
    cases hb : strictEqStr (getProp (getProp (.object fs) "response") "statusText")
      "Unauthorized"
    · rfl
    · exact absurd ((strictEqStr_eq_true_iff _ _).mp hb) hs
  simp [Fields.get, hne]

theorem handleErrors_of_unauthorized (env : Env) (fs : Fields) (context : String)
    (h : truthy (getProp (.object fs) "response") = true)
    (hs : getProp (getProp (.object fs) "response") "statusText" = .string "Unauthorized") :
    (handleErrors env (.object fs) context).1 = Thrown.value (.object authorizationError) := by
  rw [handleErrors_thrown, buildErrorInfo_response _ h]
  simp [Fields.get, hs, strictEqStr]

/-- C6: a failed request whose response has status text `Unauthorized` (whatever
its status code, 401 included) raises the authorization record; a failed request
whose response has any other status text raises a record carrying that
response's status and status text, and the two raised values differ. -/
theorem handleErrors_unauthorized_distinct (env : Env)
    (fs1 : Fields) (context1 : String) (fs2 : Fields) (context2 : String)
    (h1 : truthy (getProp (.object fs1) "response") = true)
    (ht1 : getProp (getProp (.object fs1) "response") "statusText" = .string "Unauthorized")
    (h2 : truthy (getProp (.object fs2) "response") = true)
    (ht2 : getProp (getProp (.object fs2) "response") "statusText" ≠ .string "Unauthorized") :
    (handleErrors env (.object fs1) context1).1 = Thrown.value (.object authorizationError) ∧
    (∃ rec : Fields, (handleErrors env (.object fs2) context2).1 = Thrown.value (.object rec) ∧
      rec.get "status" = getProp (getProp (.object fs2) "response") "status" ∧
      rec.get "statusText" = getProp (getProp (.object fs2) "response") "statusText") ∧
    (handleErrors env (.object fs1) context1).1 ≠ (handleErrors env (.object fs2) context2).1 := by
  refine ⟨handleErrors_of_unauthorized env fs1 context1 h1 ht1, ?_, ?_⟩
  · refine ⟨_, handleErrors_of_response env fs2 context2 h2 ht2, ?_, ?_⟩ <;>
      simp [Fields.get]
  · rw [handleErrors_of_unauthorized env fs1 context1 h1 ht1,
      handleErrors_of_response env fs2 context2 h2 ht2]
    simp [authorizationError]

/-- C6, on a 401 `Unauthorized` response against a 404 `Not Found` response. -/
theorem handleErrors_unauthorized_distinct_witness :
    (handleErrors Env.punctual (.object sampleUnauthorized) "getMyOrders").1
      = Thrown.value (.object authorizationError) ∧
    (∃ rec : Fields, (handleErrors Env.punctual (.object sampleNotFound) "getItemInfo").1
        = Thrown.value (.object rec) ∧
      rec.get "status" = getProp (getProp (.object sampleNotFound) "response") "status" ∧
      rec.get "statusText"
        = getProp (getProp (.object sampleNotFound) "response") "statusText") ∧
    (handleErrors Env.punctual (.object sampleUnauthorized) "getMyOrders").1
      ≠ (handleErrors Env.punctual (.object sampleNotFound) "getItemInfo").1 :=
  handleErrors_unauthorized_distinct Env.punctual sampleUnauthorized "getMyOrders"
    sampleNotFound "getItemInfo" rfl rfl rfl
    (by simp [sampleNotFound, getProp, Fields.get])

/-- C7: a transport error with no (truthy) response but with a request raises a
record whose code is `NO_RESPONSE` and whose message is `No response from server`,
whatever the error's own message and code, and the record has neither a status
nor a status text. -/
theorem handleErrors_no_response (env : Env) (fs : Fields) (context : String)
    (h : truthy (getProp (.object fs) "response") = false)
    (hr : truthy (getProp (.object fs) "request") = true) :
    ∃ rec : Fields, (handleErrors env (.object fs) context).1 = Thrown.value (.object rec) ∧
      rec.get "code" = .string "NO_RESPONSE" ∧
      rec.get "message" = .string "No response from server" ∧
      rec.has "status" = false ∧ rec.has "statusText" = false := by
  refine ⟨[("error", .bool true), ("message", .string "No response from server"),
    ("code", .string "NO_RESPONSE")], ?_, ?_, ?_, ?_, ?_⟩
  · rw [handleErrors_thrown, buildErrorInfo_request _ h hr]
    simp [Fields.get, strictEqStr]
  all_goals simp [Fields.get, Fields.has]

/-- C7, on a timeout. -/
theorem handleErrors_no_response_witness :
    ∃ rec : Fields, (handleErrors Env.punctual (.object sampleTimeout) "getAllItems").1
        = Thrown.value (.object rec) ∧
      rec.get "code" = .string "NO_RESPONSE" ∧
      rec.get "message" = .string "No response from server" ∧
      rec.has "status" = false ∧ rec.has "statusText" = false :=
  handleErrors_no_response Env.punctual sampleTimeout "getAllItems" rfl rfl

/-- C8: a failed request that has a response whose status text is not
`Unauthorized` raises a record whose status and status text are the response's
and whose message is the response body's `error` field when that field is
truthy, and the transport error's own message otherwise. -/
theorem handleErrors_response_fields (env : Env) (fs : Fields) (context : String)
    (h : truthy (getProp (.object fs) "response") = true)
    (hs : getProp (getProp (.object fs) "response") "statusText" ≠ .string "Unauthorized") :
    ∃ rec : Fields, (handleErrors env (.object fs) context).1 = Thrown.value (.object rec) ∧
      rec.get "status" = getProp (getProp (.object fs) "response") "status" ∧
      rec.get "statusText" = getProp (getProp (.object fs) "response") "statusText" ∧
      rec.get "message" =
        (if truthy (getProp (getProp (getProp (.object fs) "response") "data") "error") = true
         then getProp (getProp (getProp (.object fs) "response") "data") "error"
         else getProp (.object fs) "message") := by
  refine ⟨_, handleErrors_of_response env fs context h hs, ?_, ?_, ?_⟩ <;>
    simp [Fields.get, jsOr, optProp]

/-- C8, on a 404 response whose body carries an `error` field. -/
theorem handleErrors_response_fields_witness :
    ∃ rec : Fields, (handleErrors Env.punctual (.object sampleNotFound) "getItemInfo").1
        = Thrown.value (.object rec) ∧
      rec.get "status" = .int 404 ∧
      rec.get "statusText" = .string "Not Found" ∧
      rec.get "message" = .object [("request", .string "app.errors.notFound")] :=
  handleErrors_response_fields Env.punctual sampleNotFound "getItemInfo" rfl
    (by simp [sampleNotFound, getProp, Fields.get])

theorem isString_jsOr (a : JSValue) (t : String)
    (h : isString a = true ∨ truthy a = false) : isString (jsOr a (.string t)) = true := by
  unfold jsOr
  cases ht : truthy a
  · simp [isString]
  · rcases h with h | h
    · simpa using h
    · rw [ht] at h; cases h

/-- C5, refuted as stated: for a 401 `Unauthorized` response the raised record
has no `code` at all, and for a 404 response whose body carries an object in its
`error` field the raised record's message is that object, not a string. -/
theorem handleErrors_not_always_normalized :
    (¬ ∃ (rec : Fields) (m c : String),
      (handleErrors Env.punctual (.object sampleUnauthorized) "getMyOrders").1
        = Thrown.value (.object rec) ∧
      rec.get "error" = .bool true ∧ rec.get "message" = .string m ∧
      rec.get "code" = .string c) ∧
    (¬ ∃ (rec : Fields) (m c : String),
      (handleErrors Env.punctual (.object sampleNotFound) "getItemInfo").1
        = Thrown.value (.object rec) ∧
      rec.get "error" = .bool true ∧ rec.get "message" = .string m ∧
      rec.get "code" = .string c) := by
  constructor
  · rintro ⟨rec, m, c, h, -, -, hc⟩
    rw [handleErrors_of_unauthorized Env.punctual sampleUnauthorized "getMyOrders" rfl rfl] at h
    have hrec : authorizationError = rec := by
      injection h with h'
      injection h'
    subst hrec
    simp [authorizationError, Fields.get] at hc
  · rintro ⟨rec, m, c, h, -, hm, -⟩
    rw [handleErrors_of_response Env.punctual sampleNotFound "getItemInfo" rfl
      (by simp [sampleNotFound, getProp, Fields.get])] at h
    have hrec := h
    injection hrec with h'
    injection h' with h''
    subst h''
    simp [sampleNotFound, Fields.get, getProp, optProp, jsOr, truthy] at hm

/-- C5, amended: every transport error object makes the handler raise a flat
record with `error = true` and a message.  When the error has a response whose
status text is `Unauthorized` the record is the fixed authorization record (no
code, status or status text).  Otherwise it also has a code, and it has a status
and a status text exactly when the error has a response; its code is a string
whenever the transport error's own code is a string or falsy, and its message is
a string whenever the transport error's own message is a string and the response
body's `error` field is not a truthy non-string. -/
theorem handleErrors_record_shape (env : Env) (fs : Fields) (context : String) :
    ∃ rec : Fields, (handleErrors env (.object fs) context).1 = Thrown.value (.object rec) ∧
      rec.get "error" = .bool true ∧ rec.has "message" = true ∧
      ((truthy (getProp (.object fs) "response") = true ∧
        getProp (getProp (.object fs) "response") "statusText" = .string "Unauthorized") →
        rec = authorizationError) ∧
      (¬ (truthy (getProp (.object fs) "response") = true ∧
        getProp (getProp (.object fs) "response") "statusText" = .string "Unauthorized") →
        rec.has "code" = true ∧
        rec.has "status" = truthy (getProp (.object fs) "response") ∧
        rec.has "statusText" = truthy (getProp (.object fs) "response") ∧
        ((isString (getProp (.object fs) "code") = true ∨
            truthy (getProp (.object fs) "code") = false) →
          isString (rec.get "code") = true) ∧
        (isString (getProp (.object fs) "message") = true →
          (truthy (getProp (getProp (getProp (.object fs) "response") "data") "error") = true →
            isString (getProp (getProp (getProp (.object fs) "response") "data") "error")
              = true) →
          isString (rec.get "message") = true)) := by
  cases h : truthy (getProp (.object fs) "response") with
  | true =>
    by_cases hs : getProp (getProp (.object fs) "response") "statusText"
        = .string "Unauthorized"
    · refine ⟨_, handleErrors_of_unauthorized env fs context h hs, ?_, ?_, ?_, ?_⟩
      · simp [authorizationError, Fields.get]
      · simp [authorizationError, Fields.has]
      · intro _; rfl
      · intro hn; exact absurd ⟨rfl, hs⟩ hn
    · refine ⟨_, handleErrors_of_response env fs context h hs, ?_, ?_, ?_, ?_⟩
      · simp [Fields.get]
      · simp [Fields.has]
      · rintro ⟨-, hs'⟩; exact absurd hs' hs
      · intro _
        refine ⟨by simp [Fields.has], by simp [Fields.has], by simp [Fields.has], ?_, ?_⟩
        · intro hc
          simpa [Fields.get] using isString_jsOr _ "UNKNOWN" hc
        · intro hm hd
          simp only [Fields.get, jsOr, optProp]
          cases hdt : truthy (getProp (getProp (getProp (.object fs) "response") "data") "error")
          · simpa using hm
          · simpa using hd hdt
  | false =>
    cases hr : truthy (getProp (.object fs) "request") with
    | true =>
      refine ⟨[("error", .bool true), ("message", .string "No response from server"),
        ("code", .string "NO_RESPONSE")], ?_, ?_, ?_, ?_, ?_⟩
      · rw [handleErrors_thrown, buildErrorInfo_request _ h hr]
        simp [Fields.get, strictEqStr]
      · simp [Fields.get]
      · simp [Fields.has]
      · rintro ⟨hc, -⟩; cases hc
      · intro _
        simp [Fields.has, Fields.get, isString]
    | false =>
      refine ⟨[("error", .bool true),
        ("message", jsOr (getProp (.object fs) "message") (.string "Unknown error")),
        ("code", jsOr (getProp (.object fs) "code") (.string "UNKNOWN"))], ?_, ?_, ?_, ?_, ?_⟩
      · rw [handleErrors_thrown, buildErrorInfo_neither _ h hr]
        simp [Fields.get, strictEqStr]
      · simp [Fields.get]
      · simp [Fields.has]
      · rintro ⟨hc, -⟩; cases hc
      · intro _
        refine ⟨by simp [Fields.has], by simp [Fields.has], by simp [Fields.has], ?_, ?_⟩
        · intro hc
          simpa [Fields.get] using isString_jsOr _ "UNKNOWN" hc
        · intro hm _
          simpa [Fields.get] using isString_jsOr _ "Unknown error" (Or.inl hm)

/-! ## Argument validation -/

theorem checkAuth_token (s : State) (cookie : String) (hc : s.JWTcookie = .string cookie)
    (hne : cookie ≠ "") (context : String) : checkAuth s context = none := by
  simp [checkAuth, hc, truthy, hne]

theorem notPositiveInteger_eq_false_iff (v : JSValue) :
    notPositiveInteger v = false ↔ ∃ n : Int, v = JSValue.int n ∧ 0 < n := by
  unfold notPositiveInteger
  cases h : toInteger? v with
  | none =>
    simp only [Bool.true_eq_false, false_iff]
    rintro ⟨n, hn, -⟩
    rw [(toInteger?_eq_some_iff v n).mpr hn] at h
    cases h
  | some m =>
    have hm := (toInteger?_eq_some_iff v m).mp h
    simp only [decide_eq_false_iff_not, not_le]
    constructor
    · intro hpos; exact ⟨m, hm, hpos⟩
    · rintro ⟨n, hn, hpos⟩
      have := (toInteger?_eq_some_iff v n).mpr hn
      rw [h] at this
      cases this
      exact hpos

theorem isInteger_iff (v : JSValue) : isInteger v = true ↔ ∃ n : Int, v = JSValue.int n := by
  unfold isInteger
  cases h : toInteger? v with
  | none =>
    simp only [Option.isSome_none, Bool.false_eq_true, false_iff]
    rintro ⟨n, hn⟩
    rw [(toInteger?_eq_some_iff v n).mpr hn] at h
    cases h
  | some m =>
    simp only [Option.isSome_some, true_iff]
    exact ⟨m, (toInteger?_eq_some_iff v m).mp h⟩

theorem typeOf_boolean_iff (v : JSValue) :
    (typeOf v != "boolean") = false ↔ ∃ b, v = JSValue.bool b := by
  cases v <;> simp [typeOf]

theorem rank_guard_iff (r : JSValue) :
    (notNull r && !isInteger r) = false ↔ (r = JSValue.null ∨ ∃ n : Int, r = JSValue.int n) := by
  rw [← isInteger_iff]
  cases r <;> simp [notNull]

theorem type_guard_iff (t : JSValue) :
    (!strictEqStr t "sell" && !strictEqStr t "buy") = false
      ↔ (t = JSValue.string "sell" ∨ t = JSValue.string "buy") := by
  rw [← strictEqStr_eq_true_iff, ← strictEqStr_eq_true_iff]
  cases strictEqStr t "sell" <;> cases strictEqStr t "buy" <;> simp

theorem addOrder_cases (env : Env) (s : State) (w : World) (cookie : String)
    (hc : s.JWTcookie = .string cookie) (hne : cookie ≠ "")
    (itemId type platinum quantityArg visibleArg rankArg : JSValue) :
    (((type = JSValue.string "sell" ∨ type = JSValue.string "buy") ∧
      (∃ n : Int, platinum = JSValue.int n ∧ 0 < n) ∧
      (∃ n : Int, orDefault quantityArg (.int 1) = JSValue.int n ∧ 0 < n) ∧
      (∃ b, orDefault visibleArg (.bool true) = JSValue.bool b) ∧
      (orDefault rankArg .null = JSValue.null ∨
        ∃ n : Int, orDefault rankArg .null = JSValue.int n)) ∧
      addOrder env s w itemId type platinum quantityArg visibleArg rankArg
        = doRequest env s w
            { method := "POST", url := apiUrl ++ "/order", headers := getHeaders env s,
              data := some (addOrderData itemId type (orDefault visibleArg (.bool true))
                platinum (orDefault quantityArg (.int 1)) (orDefault rankArg .null)) }
            "addOrder") ∨
    (¬ ((type = JSValue.string "sell" ∨ type = JSValue.string "buy") ∧
      (∃ n : Int, platinum = JSValue.int n ∧ 0 < n) ∧
      (∃ n : Int, orDefault quantityArg (.int 1) = JSValue.int n ∧ 0 < n) ∧
      (∃ b, orDefault visibleArg (.bool true) = JSValue.bool b) ∧
      (orDefault rankArg .null = JSValue.null ∨
        ∃ n : Int, orDefault rankArg .null = JSValue.int n)) ∧
      ∃ msg, addOrder env s w itemId type platinum quantityArg visibleArg rankArg
        = { result := .error (.jsError msg), state := s, world := w }) := by
  have ha := checkAuth_token s cookie hc hne "addOrder"
  cases g1 : (!strictEqStr type "sell" && !strictEqStr type "buy") with
  | true =>
    right
    refine ⟨fun hv => ?_, ⟨"Order type must be \"sell\" or \"buy\"", ?_⟩⟩
    · have := (type_guard_iff type).mpr hv.1
      rw [g1] at this; cases this
    · simp only [addOrder, ha, g1, if_true, fail]
  | false =>
    cases g2 : notPositiveInteger platinum with
    | true =>
      right
      refine ⟨fun hv => ?_, ⟨"Platinum must be number and >0", ?_⟩⟩
      · have := (notPositiveInteger_eq_false_iff platinum).mpr hv.2.1
        rw [g2] at this; cases this
      · simp only [addOrder, ha, g1, g2, if_true, fail, Bool.false_eq_true, if_false]
    | false =>
      cases g3 : notPositiveInteger (orDefault quantityArg (.int 1)) with
      | true =>
        right
        refine ⟨fun hv => ?_, ⟨"Quantity must be number and >0", ?_⟩⟩
        · have := (notPositiveInteger_eq_false_iff _).mpr hv.2.2.1
          rw [g3] at this; cases this
        · simp only [addOrder, ha, g1, g2, g3, if_true, fail, Bool.false_eq_true, if_false]
      | false =>
        cases g4 : (typeOf (orDefault visibleArg (.bool true)) != "boolean") with
        | true =>
          right
          refine ⟨fun hv => ?_, ⟨"Visible must be boolean", ?_⟩⟩
          · have := (typeOf_boolean_iff _).mpr hv.2.2.2.1
            rw [g4] at this; cases this
          · simp only [addOrder, ha, g1, g2, g3, g4, if_true, fail, Bool.false_eq_true,
              if_false]
        | false =>
          cases g5 : (notNull (orDefault rankArg .null) && !isInteger (orDefault rankArg .null)) with
          | true =>
            right
            refine ⟨fun hv => ?_, ⟨"Rank must be number", ?_⟩⟩
            · have := (rank_guard_iff _).mpr hv.2.2.2.2
              rw [g5] at this; cases this
            · simp only [addOrder, ha, g1, g2, g3, g4, g5, if_true, fail, Bool.false_eq_true,
                if_false]
          | false =>
            left
            refine ⟨⟨(type_guard_iff _).mp g1, (notPositiveInteger_eq_false_iff _).mp g2,
              (notPositiveInteger_eq_false_iff _).mp g3, (typeOf_boolean_iff _).mp g4,
              (rank_guard_iff _).mp g5⟩, ?_⟩
            simp only [addOrder, ha, g1, g2, g3, g4, g5, Bool.false_eq_true, if_false]

/-- C9: with a token configured, `addOrder` builds and sends its request exactly
when type is `sell` or `buy`, platinum is an integer > 0, quantity is an
integer > 0, visible is a boolean and rank is `null` or an integer; otherwise it
throws a validation error and leaves the static fields and the world untouched
(no request sent, the last-request timestamp unchanged).  Here quantity, visible
and rank are the parameters as the body sees them: an argument that is omitted
(`undefined`) is bound to the default 1, `true` or `null` of the signature. -/
theorem addOrder_sends_iff_valid (env : Env) (s : State) (w : World) (cookie : String)
    (hc : s.JWTcookie = .string cookie) (hne : cookie ≠ "")
    (itemId type platinum quantityArg visibleArg rankArg : JSValue) :
    (((type = JSValue.string "sell" ∨ type = JSValue.string "buy") ∧
      (∃ n : Int, platinum = JSValue.int n ∧ 0 < n) ∧
      (∃ n : Int, orDefault quantityArg (.int 1) = JSValue.int n ∧ 0 < n) ∧
      (∃ b, orDefault visibleArg (.bool true) = JSValue.bool b) ∧
      (orDefault rankArg .null = JSValue.null ∨
        ∃ n : Int, orDefault rankArg .null = JSValue.int n)) →
      addOrder env s w itemId type platinum quantityArg visibleArg rankArg
        = doRequest env s w
            { method := "POST", url := apiUrl ++ "/order", headers := getHeaders env s,
              data := some (addOrderData itemId type (orDefault visibleArg (.bool true))
                platinum (orDefault quantityArg (.int 1)) (orDefault rankArg .null)) }
            "addOrder" ∧
      (addOrder env s w itemId type platinum quantityArg visibleArg rankArg).world.sent
        = w.sent ++
          [{ method := "POST", url := apiUrl ++ "/order", headers := getHeaders env s,
             data := some (addOrderData itemId type (orDefault visibleArg (.bool true))
               platinum (orDefault quantityArg (.int 1)) (orDefault rankArg .null)) }]) ∧
    (¬ ((type = JSValue.string "sell" ∨ type = JSValue.string "buy") ∧
      (∃ n : Int, platinum = JSValue.int n ∧ 0 < n) ∧
      (∃ n : Int, orDefault quantityArg (.int 1) = JSValue.int n ∧ 0 < n) ∧
      (∃ b, orDefault visibleArg (.bool true) = JSValue.bool b) ∧
      (orDefault rankArg .null = JSValue.null ∨
        ∃ n : Int, orDefault rankArg .null = JSValue.int n)) →
      ∃ msg, addOrder env s w itemId type platinum quantityArg visibleArg rankArg
        = { result := .error (.jsError msg), state := s, world := w }) := by
  rcases addOrder_cases env s w cookie hc hne itemId type platinum quantityArg visibleArg
    rankArg with ⟨hv, hrun⟩ | ⟨hv, hrun⟩
  · refine ⟨fun _ => ⟨hrun, ?_⟩, fun hn => absurd hv hn⟩
    rw [hrun, doRequest_sent]
  · exact ⟨fun h => absurd h hv, fun _ => hrun⟩

/-- C9, at concrete inputs: a valid call with the optional arguments omitted
sends one request, and a call with an unknown order type is rejected. -/
theorem addOrder_sends_iff_valid_witness :
    State.withToken.JWTcookie = .string "token" ∧ "token" ≠ "" ∧
    (addOrder Env.punctual State.withToken (World.fresh 1000) (.string "id") (.string "sell")
        (.int 10) .undefined .undefined .undefined).world.sent.length = 1 ∧
    ∃ msg, addOrder Env.punctual State.withToken (World.fresh 1000) (.string "id")
        (.string "rent") (.int 10) (.int 1) (.bool true) .null
      = { result := .error (.jsError msg), state := State.withToken,
          world := World.fresh 1000 } :=
  ⟨rfl, by decide,
    by
      rw [((addOrder_sends_iff_valid Env.punctual State.withToken (World.fresh 1000) "token"
        rfl (by decide) (.string "id") (.string "sell") (.int 10) .undefined .undefined
        .undefined).1 ⟨Or.inl rfl, ⟨10, rfl, by decide⟩, ⟨1, rfl, by decide⟩, ⟨true, rfl⟩,
          Or.inl rfl⟩).2]
      rfl,
    (addOrder_sends_iff_valid Env.punctual State.withToken (World.fresh 1000) "token"
      rfl (by decide) (.string "id") (.string "rent") (.int 10) (.int 1) (.bool true)
      .null).2 (by simp)⟩

/-- C10, refuted as stated: `getOrderInfo` called with an empty order id on the
initial fields, and `addOrder` called with an empty item id once a token is set,
each send their request and return what the server answers. -/
theorem empty_identifier_is_sent :
    (getOrderInfo Env.punctual State.initial (World.fresh 1000) (.string "")).world.sent
      = [{ method := "GET", url := "https://api.warframe.market/v2/order/",
           headers := [("language", "en"), ("crossplay", "true"), ("platform", "pc"),
             ("Content-Type", "application/json")],
           data := none }] ∧
    (getOrderInfo Env.punctual State.initial (World.fresh 1000) (.string "")).result
      = .ok .undefined ∧
    ((addOrder Env.punctual State.withToken (World.fresh 1000) (.string "") (.string "sell")
        (.int 10) (.int 1) (.bool true) .null).world.sent.map Request.url)
      = ["https://api.warframe.market/v2/order"] ∧
    (addOrder Env.punctual State.withToken (World.fresh 1000) (.string "") (.string "sell")
        (.int 10) (.int 1) (.bool true) .null).result = .ok .undefined :=
  ⟨rfl, rfl, rfl, rfl⟩

/-- C10, amended: each operation that takes a slug (`getItemOrders`,
`getTopItemOrders`, `getItemInfo`, `getItemInfoWithSet`, `getUserPublicInfo`,
`getUserPublicOrders`) rejects an empty (falsy) slug with a validation error and
leaves the static fields and the world untouched, so no HTTP request is issued. -/
theorem slug_methods_reject_empty (env : Env) (s : State) (w : World)
    (slug maxRank : JSValue) (h : truthy slug = false) :
    getItemOrders env s w slug
      = { result := .error (.jsError "Item Slug is required"), state := s, world := w } ∧
    getTopItemOrders env s w slug maxRank
      = { result := .error (.jsError "Item Slug is required"), state := s, world := w } ∧
    getItemInfo env s w slug
      = { result := .error (.jsError "Item Slug is required"), state := s, world := w } ∧
    getItemInfoWithSet env s w slug
      = { result := .error (.jsError "Item Slug is required"), state := s, world := w } ∧
    getUserPublicInfo env s w slug
      = { result := .error (.jsError "Slug is required"), state := s, world := w } ∧
    getUserPublicOrders env s w slug
      = { result := .error (.jsError "Slug is required"), state := s, world := w } := by
  refine ⟨?_, ?_, ?_, ?_, ?_, ?_⟩
  · simp [getItemOrders, h, fail]
  · simp [getTopItemOrders, h, fail]
  · simp [getItemInfo, h, fail]
  · simp [getItemInfoWithSet, h, fail]
  · simp [getUserPublicInfo, h, fail]
  · simp [getUserPublicOrders, h, fail]

/-- C10 amended, at the empty string, on the initial fields. -/
theorem slug_methods_reject_empty_witness :
    truthy (.string "") = false ∧
    (getItemOrders Env.punctual State.initial (World.fresh 1000) (.string "")).world.sent = [] ∧
    (getTopItemOrders Env.punctual State.initial (World.fresh 1000) (.string "")
      (.bool true)).world.sent = [] ∧
    (getUserPublicOrders Env.punctual State.initial (World.fresh 1000) (.string "")).result
      = .error (.jsError "Slug is required") :=
  have h := slug_methods_reject_empty Env.punctual State.initial (World.fresh 1000)
    (.string "") (.bool true) rfl
  ⟨rfl, by rw [h.1]; rfl, by rw [h.2.1]; rfl, by rw [h.2.2.2.2.2]⟩

end WFMApi
